import Mathlib

/-!
# Verification of `src/client/src/utils/StudentsAnalyticsCalculator.ts`

Shallow embedding of the student-analytics calculator: a per-enrollment
outcome classifier, a per-class aggregator of category counts, a
filter/sort/map pipeline producing a period-ordered analytics series,
and a projection to chart-ready records.

Modelling choices:
* JavaScript numbers carrying grades (`mediaPreFinal`, `mediaPosFinal`)
  are modelled as `ℚ`: the source only compares them against the exact
  constants `7.0`, `3.0`, `5.0`, and on such comparisons `ℚ` agrees with
  IEEE doubles.
* `year` and `semester` are modelled as `ℤ` (the spec calls them integers;
  the comparator subtracts them, i.e. orders them numerically).
* Optional record fields (`mediaPreFinal?`, `mediaPosFinal?`,
  `reprovadoPorFalta?`, and a possibly-absent `enrollments` array) are
  modelled as `Option`; the source defaults them via `??` / `|| []`.
* `[...classes].sort(cmp)` is modelled by Mathlib's stable
  `List.insertionSort` over the total preorder the comparator induces
  (ECMAScript `Array.prototype.sort` is required to be stable, and all
  stable sorts by the same total preorder agree).
* For the aliasing/frame claim, a small store of array references makes
  the copy performed by `[...classes]` explicit.
-/

namespace StudentsAnalytics

/-- Modelled from the spec: the base `Enrollment` record
(`src/client/src/types/Enrollment.ts` is not part of the analysed sources).
Per spec §3 the classifier reads exactly three optional fields — the
pre-final average, the post-final grade, and the failed-by-attendance
flag — absent on the base record, defaulted when missing.  The source's
`EnrollmentWithGrades` cast exposes the same three optional fields. -/
structure Enrollment where
  mediaPreFinal : Option ℚ
  mediaPosFinal : Option ℚ
  reprovadoPorFalta : Option Bool
deriving DecidableEq, Repr

/-- Modelled from the spec: the `Class` (class-offering) record
(`src/client/src/types/Class.ts` is not part of the analysed sources).
The calculator reads `topic` (the subject), `year`, `semester`, and a
possibly-absent `enrollments` array (the source guards it with `|| []`). -/
structure Class where
  topic : String
  year : ℤ
  semester : ℤ
  enrollments : Option (List Enrollment)
deriving DecidableEq, Repr

/-- `CategoryStatistics` (lines 8–15): five outcome counters plus
`totalStudents`, all numbers (counters, so `ℕ`). -/
structure CategoryStatistics where
  approvedByAverage : ℕ
  failedByAverage : ℕ
  approvedByGrade : ℕ
  failedByGrade : ℕ
  failedByAttendance : ℕ
  totalStudents : ℕ
deriving DecidableEq, Repr

/-- `AnalyticsData` (lines 17–23). -/
structure AnalyticsData where
  discipline : String
  periodLabel : String
  year : ℤ
  semester : ℤ
  statistics : CategoryStatistics
deriving DecidableEq, Repr

/-- `ChartDataPoint` (lines 25–32): the chart record with its five fixed
display-label fields, kept verbatim as field names. -/
structure ChartDataPoint where
  period : String
  «APV. M» : ℕ
  «APV. N» : ℕ
  «REP. N» : ℕ
  «REP. M» : ℕ
  «REP. F» : ℕ
deriving DecidableEq, Repr

/-- `StudentCategory` (line 34): the keys of `CategoryStatistics` other
than `totalStudents`. -/
inductive StudentCategory where
  | approvedByAverage
  | failedByAverage
  | approvedByGrade
  | failedByGrade
  | failedByAttendance
deriving DecidableEq, Repr

/-- `classifyStudent` (lines 51–80): classifies one enrollment.  The three
grade fields default via `??` to `false` / `0`; the guard chain returns
the first matching category.  The declared result type admits `null`
(`none`), though no branch produces it. -/
def classifyStudent (enrollment : Enrollment) : Option StudentCategory :=
  let reprovadoPorFalta := enrollment.reprovadoPorFalta.getD false
  let mediaPosFinal := enrollment.mediaPosFinal.getD 0
  let mediaPreFinal := enrollment.mediaPreFinal.getD 0
  if reprovadoPorFalta then
    some .failedByAttendance
  else if mediaPreFinal ≥ 7 then
    some .approvedByAverage
  else if mediaPreFinal ≥ 3 ∧ mediaPreFinal < 7 then
    if mediaPosFinal ≥ 5 then
      some .approvedByGrade
    else
      some .failedByGrade
  else
    some .failedByAverage

/-- `stats[category]++` (line 101): bump the counter named by the category. -/
def CategoryStatistics.incr (stats : CategoryStatistics) :
    StudentCategory → CategoryStatistics
  | .approvedByAverage => { stats with approvedByAverage := stats.approvedByAverage + 1 }
  | .failedByAverage => { stats with failedByAverage := stats.failedByAverage + 1 }
  | .approvedByGrade => { stats with approvedByGrade := stats.approvedByGrade + 1 }
  | .failedByGrade => { stats with failedByGrade := stats.failedByGrade + 1 }
  | .failedByAttendance => { stats with failedByAttendance := stats.failedByAttendance + 1 }

/-- `calculateClassStatistics` (lines 85–106): start from all-zero
counters with `totalStudents = enrollments.length`, then fold the
enrollments, incrementing the classified counter when the classifier
returns a category. -/
def calculateClassStatistics (classObj : Class) : CategoryStatistics :=
  let enrollments := classObj.enrollments.getD []
  let stats : CategoryStatistics :=
    { approvedByAverage := 0
      failedByAverage := 0
      approvedByGrade := 0
      failedByGrade := 0
      failedByAttendance := 0
      totalStudents := enrollments.length }
  enrollments.foldl
    (fun stats enrollment =>
      match classifyStudent enrollment with
      | some category => stats.incr category
      | none => stats)
    stats

/-- `String.prototype.toLowerCase()`: lowercase every character.  (Written
charwise over the string's character list so that the kernel can evaluate
it; Lean's own `String.toLower` is the same map but does not reduce.) -/
def toLowerCase (s : String) : String :=
  ⟨s.data.map Char.toLower⟩

/-- `filterClassesByDiscipline` (lines 115–122): keep the classes whose
`topic`, lowercased, equals the lowercased requested discipline. -/
def filterClassesByDiscipline (classes : List Class) (discipline : String) :
    List Class :=
  classes.filter fun classObj => toLowerCase classObj.topic == toLowerCase discipline

/-- The total preorder induced by the comparator of `sortClassesByPeriod`
(lines 128–133): the comparator returns a negative-or-zero value on
`(a, b)` exactly when `a.year < b.year`, or the years agree and
`a.semester ≤ b.semester`. -/
def periodLe (a b : Class) : Prop :=
  a.year < b.year ∨ (a.year = b.year ∧ a.semester ≤ b.semester)

instance : DecidableRel periodLe := fun a b =>
  decidable_of_iff (a.year < b.year ∨ (a.year = b.year ∧ a.semester ≤ b.semester))
    Iff.rfl

instance : IsTotal Class periodLe where
  total a b := by
    unfold periodLe
    omega

instance : IsTrans Class periodLe where
  trans a b c hab hbc := by
    unfold periodLe at *
    omega

/-- `sortClassesByPeriod` (lines 127–134): `[...classes].sort(cmp)` with
the year-then-semester comparator.  ECMAScript sort is stable, so it is
modelled by the stable `List.insertionSort` over `periodLe`. -/
def sortClassesByPeriod (classes : List Class) : List Class :=
  classes.insertionSort periodLe

/-- `generateAnalyticsForDiscipline` (lines 139–153): filter by
discipline, sort by period, then map each class to its analytics entry
(`periodLabel` is the template literal `` `${year}.${semester}` ``). -/
def generateAnalyticsForDiscipline (discipline : String) (allClasses : List Class) :
    List AnalyticsData :=
  let filteredClasses := filterClassesByDiscipline allClasses discipline
  let sortedClasses := sortClassesByPeriod filteredClasses
  sortedClasses.map fun classObj =>
    { discipline := classObj.topic
      periodLabel := toString classObj.year ++ "." ++ toString classObj.semester
      year := classObj.year
      semester := classObj.semester
      statistics := calculateClassStatistics classObj }

/-- `transformToChartData` (lines 158–169): the 1:1 projection of
analytics entries to chart records. -/
def transformToChartData (analyticsData : List AnalyticsData) :
    List ChartDataPoint :=
  analyticsData.map fun item =>
    { period := item.periodLabel
      «APV. M» := item.statistics.approvedByAverage
      «APV. N» := item.statistics.approvedByGrade
      «REP. N» := item.statistics.failedByGrade
      «REP. M» := item.statistics.failedByAverage
      «REP. F» := item.statistics.failedByAttendance }

/-! ### Spec-side definitions (transcribed from the specification's words,
for refinement comparisons against the source functions above) -/

/-- Spec §4.1, transcribed: the priority-ordered decision rule.
`failedByAttendance` if the flag is true; otherwise `approvedByAverage`
if the pre-final average is `≥ 7.0`; otherwise, in the remedial band
`[3.0, 7.0)`, `approvedByGrade` when the post-final grade is `≥ 5.0` and
`failedByGrade` when it is `< 5.0`; otherwise (`< 3.0`) `failedByAverage`. -/
def classifierSpec (failedByAttendanceFlag : Bool)
    (preFinalAverage postFinalAverage : ℚ) : StudentCategory :=
  if failedByAttendanceFlag then
    .failedByAttendance
  else if preFinalAverage ≥ 7 then
    .approvedByAverage
  else if 3 ≤ preFinalAverage ∧ preFinalAverage < 7 then
    if postFinalAverage ≥ 5 then .approvedByGrade else .failedByGrade
  else
    .failedByAverage

/-- Spec §4.3 step 1, transcribed: an offering is retained exactly when its
subject, lowercased, equals the lowercased query subject. -/
def matchesDisciplineSpec (discipline : String) (classObj : Class) : Prop :=
  toLowerCase classObj.topic = toLowerCase discipline

instance (discipline : String) (classObj : Class) :
    Decidable (matchesDisciplineSpec discipline classObj) :=
  decidable_of_iff (toLowerCase classObj.topic = toLowerCase discipline) Iff.rfl

/-- Spec §4.4, transcribed: the chart record built from one analytics
entry — `periodLabel` becomes the period field, the five counters are
copied verbatim under their display keys. -/
def chartRecordSpec (entry : AnalyticsData) : ChartDataPoint :=
  { period := entry.periodLabel
    «APV. M» := entry.statistics.approvedByAverage
    «APV. N» := entry.statistics.approvedByGrade
    «REP. N» := entry.statistics.failedByGrade
    «REP. M» := entry.statistics.failedByAverage
    «REP. F» := entry.statistics.failedByAttendance }

/-- The sum of the five outcome counters of a `CategoryStatistics`. -/
def sumCounters (stats : CategoryStatistics) : ℕ :=
  stats.approvedByAverage + stats.failedByAverage + stats.approvedByGrade +
    stats.failedByGrade + stats.failedByAttendance

/-- The `(year, semester)` sort key of a class-offering. -/
def periodKey (classObj : Class) : ℤ × ℤ :=
  (classObj.year, classObj.semester)

/-- The year-then-semester order on analytics entries. -/
def entryPeriodLe (a b : AnalyticsData) : Prop :=
  a.year < b.year ∨ (a.year = b.year ∧ a.semester ≤ b.semester)

/-! ### The object-literal view of a chart record

`transformToChartData` builds, for each entry, a JavaScript object literal
(lines 161–168).  A JS object is an ordered key/value map, so to reason
about its actual key strings the literal is also embedded as an
association list. -/

/-- A JavaScript value appearing in the chart object literal. -/
inductive JsValue where
  | str (s : String)
  | num (n : ℕ)
deriving DecidableEq, Repr

/-- The object literal of lines 161–168, viewed as the ordered key/value
pairs of the produced JS object. -/
def chartRecordObj (item : AnalyticsData) : List (String × JsValue) :=
  [("period", .str item.periodLabel),
   ("APV. M", .num item.statistics.approvedByAverage),
   ("APV. N", .num item.statistics.approvedByGrade),
   ("REP. N", .num item.statistics.failedByGrade),
   ("REP. M", .num item.statistics.failedByAverage),
   ("REP. F", .num item.statistics.failedByAttendance)]

/-! ### A store of array references

JavaScript arrays are heap references; `sortClassesByPeriod` receives a
reference, copies its contents into a fresh array (`[...classes]`) and
sorts the fresh array in place.  To state the frame property ("the
caller's array is unchanged") the relevant allocations are made explicit. -/

/-- A store of `Class`-array references: contents per reference, plus the
next fresh reference. -/
structure ArrayStore where
  mem : ℕ → List Class
  next : ℕ

/-- Read the array behind a reference. -/
def ArrayStore.read (h : ArrayStore) (r : ℕ) : List Class :=
  h.mem r

/-- Overwrite the array behind a reference (in-place mutation). -/
def ArrayStore.write (h : ArrayStore) (r : ℕ) (v : List Class) : ArrayStore :=
  { h with mem := fun i => if i = r then v else h.mem i }

/-- Allocate a fresh array with the given contents. -/
def ArrayStore.alloc (h : ArrayStore) (v : List Class) : ArrayStore × ℕ :=
  ({ mem := fun i => if i = h.next then v else h.mem i, next := h.next + 1 },
    h.next)

/-- `sortClassesByPeriod` on the store: `[...classes]` allocates a fresh
array holding the contents of the argument array, then `.sort` mutates
that fresh array in place; the fresh reference is returned. -/
def sortClassesByPeriodRef (h : ArrayStore) (r : ℕ) : ArrayStore × ℕ :=
  let contents := h.read r
  let copied := h.alloc contents
  ((copied.1).write copied.2 (sortClassesByPeriod contents), copied.2)

/-- `generateAnalyticsForDiscipline` on the store: `.filter` allocates a
fresh array of the retained offerings, `sortClassesByPeriod` copies and
sorts it, and `.map` produces the entries from the sorted array. -/
def generateAnalyticsForDisciplineRef (h : ArrayStore) (discipline : String)
    (r : ℕ) : ArrayStore × List AnalyticsData :=
  let filtered := h.alloc (filterClassesByDiscipline (h.read r) discipline)
  let sorted := sortClassesByPeriodRef filtered.1 filtered.2
  (sorted.1,
    ((sorted.1).read sorted.2).map fun classObj =>
      { discipline := classObj.topic
        periodLabel := toString classObj.year ++ "." ++ toString classObj.semester
        year := classObj.year
        semester := classObj.semester
        statistics := calculateClassStatistics classObj })

/-- A concrete store: reference 0 holds a two-element array, reference 1
is the next fresh one. -/
def storeExample : ArrayStore :=
  { mem := fun i =>
      if i = 0 then [⟨"Math", 2023, 2, none⟩, ⟨"Math", 2023, 1, none⟩] else []
    next := 1 }

/-! ### Helper lemmas -/

/-- The classifier always returns the category prescribed by the spec's
decision rule applied to the defaulted fields. -/
lemma classifyStudent_eq_spec (e : Enrollment) :
    classifyStudent e =
      some (classifierSpec (e.reprovadoPorFalta.getD false)
        (e.mediaPreFinal.getD 0) (e.mediaPosFinal.getD 0)) := by
  simp only [classifyStudent, classifierSpec]
  split_ifs <;> rfl

/-- Unfolding of the aggregator: initial counters, then the fold. -/
lemma calculateClassStatistics_def (c : Class) :
    calculateClassStatistics c =
      (c.enrollments.getD []).foldl
        (fun stats enrollment =>
          match classifyStudent enrollment with
          | some category => stats.incr category
          | none => stats)
        { approvedByAverage := 0
          failedByAverage := 0
          approvedByGrade := 0
          failedByGrade := 0
          failedByAttendance := 0
          totalStudents := (c.enrollments.getD []).length } := rfl

lemma incr_sumCounters (s : CategoryStatistics) (c : StudentCategory) :
    sumCounters (s.incr c) = sumCounters s + 1 := by
  cases c <;> simp [CategoryStatistics.incr, sumCounters] <;> omega

lemma incr_totalStudents (s : CategoryStatistics) (c : StudentCategory) :
    (s.incr c).totalStudents = s.totalStudents := by
  cases c <;> rfl

/-- Folding the classification step over any enrollment list adds the list
length to the counter sum and leaves `totalStudents` untouched. -/
lemma foldl_classify_sum (l : List Enrollment) :
    ∀ s : CategoryStatistics,
      sumCounters (l.foldl
          (fun stats enrollment =>
            match classifyStudent enrollment with
            | some category => stats.incr category
            | none => stats) s) = sumCounters s + l.length ∧
      (l.foldl
          (fun stats enrollment =>
            match classifyStudent enrollment with
            | some category => stats.incr category
            | none => stats) s).totalStudents = s.totalStudents := by
  induction l with
  | nil => intro s; simp
  | cons e t ih =>
    intro s
    obtain ⟨c, hc⟩ : ∃ c, classifyStudent e = some c :=
      ⟨_, classifyStudent_eq_spec e⟩
    simp only [List.foldl_cons, hc]
    constructor
    · rw [(ih (s.incr c)).1, incr_sumCounters, List.length_cons]
      omega
    · rw [(ih (s.incr c)).2, incr_totalStudents]

/-- Equal period keys make the comparator order both ways. -/
lemma periodLe_of_key_eq {a b : Class} (h : periodKey a = periodKey b) :
    periodLe a b := by
  unfold periodKey at h
  unfold periodLe
  have h1 : a.year = b.year := congrArg Prod.fst h
  have h2 : a.semester = b.semester := congrArg Prod.snd h
  omega

/-- Inserting `a` into `l` puts `a` in front of the elements of `l` that
share its period key, and leaves the key-`k` sublist untouched otherwise. -/
lemma filter_orderedInsert (k : ℤ × ℤ) (a : Class) (l : List Class) :
    (List.orderedInsert periodLe a l).filter (fun c => decide (periodKey c = k)) =
      if periodKey a = k then
        a :: l.filter (fun c => decide (periodKey c = k))
      else
        l.filter (fun c => decide (periodKey c = k)) := by
  induction l with
  | nil =>
    by_cases hk : periodKey a = k <;> simp [hk]
  | cons b t ih =>
    by_cases hab : periodLe a b
    · rw [List.orderedInsert, if_pos hab]
      by_cases hk : periodKey a = k <;> simp [hk, List.filter_cons]
    · rw [List.orderedInsert, if_neg hab]
      rw [List.filter_cons]
      by_cases hk : periodKey a = k
      · have hbk : periodKey b ≠ k := fun hbk' =>
          hab (periodLe_of_key_eq (by rw [hk, hbk']))
        simp [hk, hbk, ih]
      · by_cases hbk : periodKey b = k <;> simp [hk, hbk, ih]

/-- Stability of the period sort: for every period key, the key-`k`
sublist of the sorted output equals that of the input. -/
lemma filter_sortClassesByPeriod (k : ℤ × ℤ) (l : List Class) :
    (sortClassesByPeriod l).filter (fun c => decide (periodKey c = k)) =
      l.filter (fun c => decide (periodKey c = k)) := by
  unfold sortClassesByPeriod
  induction l with
  | nil => rfl
  | cons a t ih =>
    rw [List.insertionSort, filter_orderedInsert, List.filter_cons]
    by_cases hk : periodKey a = k <;> simp [hk, ih]

/-- The sorted pipeline output is sorted entrywise. -/
lemma sorted_generateAnalytics (discipline : String) (allClasses : List Class) :
    List.Sorted entryPeriodLe
      (generateAnalyticsForDiscipline discipline allClasses) := by
  have hs : List.Sorted periodLe
      (sortClassesByPeriod (filterClassesByDiscipline allClasses discipline)) :=
    List.sorted_insertionSort periodLe _
  exact List.Pairwise.map _ (fun a b hab => hab) hs

/-! ### Claim theorems -/

/-- Claim C1: for every enrollment the Classifier returns exactly one
category, decided by first-match priority (attendance failure first, then
`preFinalAverage ≥ 7.0`, then the remedial band `[3.0, 7.0)` split on
`postFinalAverage ≥ 5.0`, otherwise `failedByAverage`), with exact
boundaries: `preFinalAverage = 7.0` is `approvedByAverage`,
`preFinalAverage = 3.0` falls in the remedial band, and a true attendance
flag overrides all grades. -/
theorem classifyStudent_first_match_priority :
    (∀ e : Enrollment,
      classifyStudent e =
        some (classifierSpec (e.reprovadoPorFalta.getD false)
          (e.mediaPreFinal.getD 0) (e.mediaPosFinal.getD 0))) ∧
    (∀ pos : ℚ,
      classifyStudent ⟨some 7, some pos, some false⟩ =
        some .approvedByAverage) ∧
    (∀ pos : ℚ,
      classifyStudent ⟨some 3, some pos, some false⟩ =
        some (if pos ≥ 5 then .approvedByGrade else .failedByGrade)) ∧
    (∀ pre pos : ℚ,
      classifyStudent ⟨some pre, some pos, some true⟩ =
        some .failedByAttendance) := by
  refine ⟨classifyStudent_eq_spec, ?_, ?_, ?_⟩
  · intro pos
    rw [classifyStudent_eq_spec]
    norm_num [classifierSpec]
  · intro pos
    rw [classifyStudent_eq_spec]
    norm_num [classifierSpec]
  · intro pre pos
    rw [classifyStudent_eq_spec]
    norm_num [classifierSpec]

/-- Claim C2: the Aggregator's `totalStudents` is the enrollment list's
length, independent of classification, and the five outcome counters sum
to at most `totalStudents` — with equality, since the Classifier is total. -/
theorem calculateClassStatistics_counter_sum (c : Class) :
    (calculateClassStatistics c).totalStudents =
      (c.enrollments.getD []).length ∧
    sumCounters (calculateClassStatistics c) ≤
      (calculateClassStatistics c).totalStudents ∧
    sumCounters (calculateClassStatistics c) =
      (calculateClassStatistics c).totalStudents := by
  rw [calculateClassStatistics_def]
  obtain ⟨h1, h2⟩ := foldl_classify_sum (c.enrollments.getD [])
    { approvedByAverage := 0
      failedByAverage := 0
      approvedByGrade := 0
      failedByGrade := 0
      failedByAttendance := 0
      totalStudents := (c.enrollments.getD []).length }
  refine ⟨h2, ?_, ?_⟩ <;> rw [h1, h2] <;> simp [sumCounters]

/-- Claim C3: the Period Pipeline's output is sorted non-decreasingly by
year, then semester, and the sort is stable: retained offerings with the
same `(year, semester)` key keep their relative input order. -/
theorem period_pipeline_sorted_and_stable (discipline : String)
    (classes : List Class) :
    List.Sorted entryPeriodLe
      (generateAnalyticsForDiscipline discipline classes) ∧
    ∀ k : ℤ × ℤ,
      (sortClassesByPeriod (filterClassesByDiscipline classes discipline)).filter
          (fun c => decide (periodKey c = k)) =
        (filterClassesByDiscipline classes discipline).filter
          (fun c => decide (periodKey c = k)) :=
  ⟨sorted_generateAnalytics discipline classes,
    fun k => filter_sortClassesByPeriod k _⟩

/-- Claim C4: the filter retains exactly the offerings whose subject,
lowercased, equals the lowercased query — exact string match, no
trimming; in particular `"Calculus"` matches the query `"calculus"`. -/
theorem filterClassesByDiscipline_case_insensitive :
    (∀ (discipline : String) (classes : List Class),
      filterClassesByDiscipline classes discipline =
        classes.filter fun c => decide (matchesDisciplineSpec discipline c)) ∧
    filterClassesByDiscipline
        [⟨"Calculus", 2024, 1, none⟩, ⟨"Algebra", 2024, 1, none⟩] "calculus" =
      [⟨"Calculus", 2024, 1, none⟩] := by
  constructor
  · intro discipline classes
    unfold filterClassesByDiscipline
    refine List.filter_congr ?_
    intro c _
    by_cases h : toLowerCase c.topic = toLowerCase discipline <;>
      simp [matchesDisciplineSpec, h]
  · decide

/-- Claim C5: the Chart Projector is a 1:1, order-preserving projection —
it maps each entry to the record given by the spec's reshape, preserving
length and the period ordering, also after `buildSeries`. -/
theorem transformToChartData_projection (l : List AnalyticsData)
    (discipline : String) (classes : List Class) :
    transformToChartData l = l.map chartRecordSpec ∧
    (transformToChartData l).length = l.length ∧
    (transformToChartData l).map ChartDataPoint.period =
      l.map AnalyticsData.periodLabel ∧
    (transformToChartData (generateAnalyticsForDiscipline discipline classes)).length =
      (generateAnalyticsForDiscipline discipline classes).length ∧
    (transformToChartData (generateAnalyticsForDiscipline discipline classes)).map
        ChartDataPoint.period =
      (generateAnalyticsForDiscipline discipline classes).map
        AnalyticsData.periodLabel := by
  refine ⟨rfl, by simp [transformToChartData], ?_, by simp [transformToChartData], ?_⟩ <;>
    · simp only [transformToChartData]
      rw [List.map_map]
      rfl

/-- Claim C6: the Classifier treats an absent `preFinalAverage`,
`postFinalAverage` or `failedByAttendance` field exactly as `0`, `0`,
`false` respectively; with all three absent it returns `failedByAverage`. -/
theorem classifyStudent_defaults (pre pos : Option ℚ) (falta : Option Bool) :
    classifyStudent ⟨pre, pos, falta⟩ =
      classifyStudent
        ⟨some (pre.getD 0), some (pos.getD 0), some (falta.getD false)⟩ ∧
    classifyStudent ⟨none, none, none⟩ = some .failedByAverage :=
  ⟨rfl, by decide⟩

/-- Claim C7: aggregating a class whose enrollments collection is empty
or absent yields all five counters zero and `totalStudents = 0`. -/
theorem calculateClassStatistics_empty (c : Class)
    (h : c.enrollments = none ∨ c.enrollments = some []) :
    calculateClassStatistics c =
      { approvedByAverage := 0
        failedByAverage := 0
        approvedByGrade := 0
        failedByGrade := 0
        failedByAttendance := 0
        totalStudents := 0 } := by
  rcases h with h | h <;> rw [calculateClassStatistics_def, h] <;> rfl

/-- Claim C7 witness: the theorem applied to a class with an absent
enrollments collection. -/
theorem calculateClassStatistics_empty_witness :
    ((⟨"Math", 2023, 1, none⟩ : Class).enrollments = none ∨
      (⟨"Math", 2023, 1, none⟩ : Class).enrollments = some []) ∧
    calculateClassStatistics ⟨"Math", 2023, 1, none⟩ =
      { approvedByAverage := 0
        failedByAverage := 0
        approvedByGrade := 0
        failedByGrade := 0
        failedByAttendance := 0
        totalStudents := 0 } :=
  ⟨Or.inl rfl,
    calculateClassStatistics_empty ⟨"Math", 2023, 1, none⟩ (Or.inl rfl)⟩

/-- Claim C8: the pipeline does not mutate the caller's array — sorting
operates on the fresh copy made by `[...classes]`, so after the call the
reference passed in still holds the same elements in the same order; the
returned results agree with the pure functions. -/
theorem generateAnalytics_no_mutation (h : ArrayStore) (discipline : String)
    (r : ℕ) (hr : r < h.next) :
    (sortClassesByPeriodRef h r).1.read r = h.read r ∧
    (sortClassesByPeriodRef h r).1.read (sortClassesByPeriodRef h r).2 =
      sortClassesByPeriod (h.read r) ∧
    (generateAnalyticsForDisciplineRef h discipline r).1.read r = h.read r ∧
    (generateAnalyticsForDisciplineRef h discipline r).2 =
      generateAnalyticsForDiscipline discipline (h.read r) := by
  have h1 : r ≠ h.next := by omega
  have h2 : r ≠ h.next + 1 := by omega
  simp only [sortClassesByPeriodRef, generateAnalyticsForDisciplineRef,
    generateAnalyticsForDiscipline, ArrayStore.read, ArrayStore.write,
    ArrayStore.alloc]
  simp [h1, h2]

/-- Claim C8 witness: the theorem applied to a two-element array behind
reference 0 of a concrete store. -/
theorem generateAnalytics_no_mutation_witness :
    0 < storeExample.next ∧
    (sortClassesByPeriodRef storeExample 0).1.read 0 = storeExample.read 0 :=
  ⟨by decide,
    (generateAnalytics_no_mutation storeExample "math" 0 (by decide)).1⟩

/-- Claim C9: every produced chart record has exactly the six keys
`period`, `APV. M`, `APV. N`, `REP. N`, `REP. M`, `REP. F` (in that
order), holding the period label and, respectively, `approvedByAverage`,
`approvedByGrade`, `failedByGrade`, `failedByAverage`,
`failedByAttendance`; longer codes such as `approved-by-average` are not
keys. -/
theorem chartRecord_display_keys (item : AnalyticsData) :
    (chartRecordObj item).map Prod.fst =
      ["period", "APV. M", "APV. N", "REP. N", "REP. M", "REP. F"] ∧
    (chartRecordObj item).lookup "APV. M" =
      some (.num item.statistics.approvedByAverage) ∧
    (chartRecordObj item).lookup "APV. N" =
      some (.num item.statistics.approvedByGrade) ∧
    (chartRecordObj item).lookup "REP. N" =
      some (.num item.statistics.failedByGrade) ∧
    (chartRecordObj item).lookup "REP. M" =
      some (.num item.statistics.failedByAverage) ∧
    (chartRecordObj item).lookup "REP. F" =
      some (.num item.statistics.failedByAttendance) ∧
    (chartRecordObj item).lookup "approved-by-average" = none ∧
    transformToChartData [item] = [chartRecordSpec item] :=
  ⟨rfl, rfl, rfl, rfl, rfl, rfl, rfl, rfl⟩

/-- Claim C10: each produced entry's discipline field is the offering's
own subject string with its original casing, not the query: querying
`"math"` against an offering whose subject is `"Math"` yields `"Math"`. -/
theorem analytics_keeps_offering_casing (discipline : String)
    (classes : List Class) :
    (generateAnalyticsForDiscipline discipline classes).map
        AnalyticsData.discipline =
      (sortClassesByPeriod (filterClassesByDiscipline classes discipline)).map
        Class.topic ∧
    generateAnalyticsForDiscipline "math" [⟨"Math", 2023, 1, some []⟩] =
      [⟨"Math", "2023.1", 2023, 1, ⟨0, 0, 0, 0, 0, 0⟩⟩] := by
  constructor
  · simp only [generateAnalyticsForDiscipline]
    rw [List.map_map]
    rfl
  · decide

end StudentsAnalytics
